import Mathlib

/-
Shallow embedding of the Farcaster rock-paper-scissors frame server
(src/index.ts).  Pure TypeScript functions become Lean functions; the
mutable in-memory `matches` Map becomes explicit state passing over an
association list; JavaScript truthiness tests (`!match.playerB`,
`!matchId`, `!messageBytes`) are modelled exactly, so `undefined`, the
number 0 and the empty string are falsy.  An HTTP response is modelled
by its status code together with the screen descriptor that the source
passes to the HTML serializer `frameMeta` (title, image, buttons,
post_url); the purely syntactic HTML string construction is not
re-proved about.  Identities (fids) and button indices are JavaScript
numbers used only as integers in the source; they are modelled as Nat.
-/

namespace RPS

/-- The three moves, from `type Move = "rock" | "paper" | "scissors"`. -/
inductive Move where
  | rock
  | paper
  | scissors
  deriving DecidableEq, Fintype, Repr

/-- Name of a move as the source's string literal (used in titles via
template interpolation). -/
def moveName : Move → String
  | Move.rock => "rock"
  | Move.paper => "paper"
  | Move.scissors => "scissors"

/-- `decideWinner` from src/index.ts lines 37-47: 0 = draw, 1 = first
player wins, 2 = second player wins. -/
def decideWinner (a b : Move) : Nat :=
  if a = b then 0
  else if (a = Move.rock ∧ b = Move.scissors) ∨
          (a = Move.paper ∧ b = Move.rock) ∨
          (a = Move.scissors ∧ b = Move.paper) then 1
  else 2

/-- The `mode` field of a match record: `"bot" | "pvp"`. -/
inductive Mode where
  | bot
  | pvp
  deriving DecidableEq, Repr

/-- `MatchState` from src/index.ts lines 20-28.  Optional fields are
`Option`; `playerB` may hold any number, including 0 (JS `number`). -/
structure MatchState where
  id : String
  mode : Mode
  playerA : Nat
  playerB : Option Nat
  moveA : Option Move
  moveB : Option Move
  createdAt : Nat
  deriving DecidableEq, Repr

/-- JS truthiness of an optional number (`!x` is true for `undefined`
and for `0`). -/
def truthyNum : Option Nat → Bool
  | none => false
  | some n => n != 0

/-- JS truthiness of an optional move.  A present move is one of the
nonempty strings "rock"/"paper"/"scissors", hence always truthy. -/
def truthyMove : Option Move → Bool
  | none => false
  | some _ => true

/-- The in-memory store `const matches = new Map<string, MatchState>()`,
modelled as an association list in insertion order with unique keys. -/
abbrev Matches := List (String × MatchState)

/-- `matches.get(k)`: the value at the first (in a reachable store, the
only) entry with key `k`. -/
def Matches.get (s : Matches) (k : String) : Option MatchState :=
  match s with
  | [] => none
  | p :: rest => if p.1 = k then some p.2 else Matches.get rest k

/-- `matches.has(k)`: a JS Map holds a key exactly when `get` is defined. -/
def Matches.has (s : Matches) (k : String) : Bool :=
  (Matches.get s k).isSome

/-- `matches.set(k, v)`: replace the entry with key `k` in place, or
append a new entry when the key is absent (JS Map insertion order). -/
def Matches.set (s : Matches) (k : String) (v : MatchState) : Matches :=
  match s with
  | [] => [(k, v)]
  | p :: rest => if p.1 = k then (k, v) :: rest else p :: Matches.set rest k v

/-- `matches.delete(k)`: remove the entry (entries) with key `k`. -/
def Matches.delete (s : Matches) (k : String) : Matches :=
  match s with
  | [] => []
  | p :: rest => if p.1 = k then Matches.delete rest k else p :: Matches.delete rest k

/-- The environment the server reads: `PUBLIC_URL` and the two wallet
connect URLs (src/index.ts lines 69-72, 200-201). -/
structure Config where
  publicBase : String
  baseConnectUrl : String
  arbConnectUrl : String
  deriving DecidableEq, Repr

/-- `publicUrl(path)` = base + path. -/
def publicUrl (cfg : Config) (path : String) : String :=
  cfg.publicBase ++ path

/-- One `fc:frame` button as passed to `frameMeta` (label, optional
action kind "post"/"url", optional link target). -/
structure ButtonSpec where
  label : String
  action : Option String
  target : Option String
  deriving DecidableEq, Repr

/-- The argument record of `frameMeta`: the screen descriptor
(title, image, ordered buttons, callback post_url). -/
structure FrameArgs where
  title : String
  image : String
  buttons : List ButtonSpec
  postUrl : String
  deriving DecidableEq, Repr

/-- An HTTP response: status code plus the screen descriptor handed to
`frameMeta` (the HTML serialization itself is abstracted). -/
structure HttpResponse where
  status : Nat
  frame : FrameArgs
  deriving DecidableEq, Repr

/-- The `Home` frame rendered by `GET /` (src/index.ts lines 129-142). -/
def getRoot (cfg : Config) : HttpResponse :=
  { status := 200
    frame :=
      { title := "Rock Paper Scissors"
        image := publicUrl cfg ("/images/start.png")
        buttons := [⟨"Play Bot", none, none⟩, ⟨"Create PvP", none, none⟩,
                    ⟨"How to Play", none, none⟩, ⟨"Connect Wallet", none, none⟩]
        postUrl := publicUrl cfg ("/action") } }

/-- The match id generated on lobby creation:
`` `${Date.now()}-${fid}` `` with the current time passed in as `now`. -/
def mkMatchId (now fid : Nat) : String :=
  toString now ++ "-" ++ toString fid

/-- The freshly stored record of a new PvP lobby (src/index.ts 167-172). -/
def newMatch (now fid : Nat) (matchId : String) : MatchState :=
  { id := matchId, mode := Mode.pvp, playerA := fid, playerB := none,
    moveA := none, moveB := none, createdAt := now }

/-- The `POST /action` handler body after verification (src/index.ts
145-228).  `Date.now()` is passed in as `now`; the returned pair is the
response and the store after the request. -/
def actionHandler (cfg : Config) (store : Matches) (now fid buttonIndex : Nat) :
    HttpResponse × Matches :=
  if buttonIndex = 1 then
    ({ status := 200
       frame :=
         { title := "Play Bot - Choose"
           image := publicUrl cfg ("/images/choose.png")
           buttons := [⟨"Rock", none, none⟩, ⟨"Paper", none, none⟩,
                       ⟨"Scissors", none, none⟩, ⟨"Back", none, none⟩]
           postUrl := publicUrl cfg ("/bot") } }, store)
  else if buttonIndex = 2 then
    let matchId := mkMatchId now fid
    let store1 := Matches.set store matchId (newMatch now fid matchId)
    ({ status := 200
       frame :=
         { title := "PvP Lobby Created"
           image := publicUrl cfg ("/images/lobby.png")
           buttons := [⟨"Share", none, none⟩, ⟨"Cancel", none, none⟩,
                       ⟨"Connect Wallet", none, none⟩, ⟨"Back", none, none⟩]
           postUrl := publicUrl cfg ("/pvp?matchId=" ++ matchId) } }, store1)
  else if buttonIndex = 3 then
    ({ status := 200
       frame :=
         { title := "How to Play"
           image := publicUrl cfg ("/images/howto.png")
           buttons := [⟨"Play Bot", none, none⟩, ⟨"Create PvP", none, none⟩,
                       ⟨"Back", none, none⟩]
           postUrl := publicUrl cfg ("/action") } }, store)
  else if buttonIndex = 4 then
    ({ status := 200
       frame :=
         { title := "Connect Wallet"
           image := publicUrl cfg ("/images/connect.png")
           buttons := [⟨"Base", some ("url"), some cfg.baseConnectUrl⟩,
                       ⟨"Arbitrum", some ("url"), some cfg.arbConnectUrl⟩,
                       ⟨"Back", none, none⟩]
           postUrl := publicUrl cfg ("/connect") } }, store)
  else
    ({ status := 200
       frame :=
         { title := "Rock Paper Scissors"
           image := publicUrl cfg ("/images/start.png")
           buttons := [⟨"Play Bot", none, none⟩, ⟨"Create PvP", none, none⟩,
                       ⟨"How to Play", none, none⟩, ⟨"Connect Wallet", none, none⟩]
           postUrl := publicUrl cfg ("/action") } }, store)

/-- `moveMap` = `{ 1: "rock", 2: "paper", 3: "scissors" }`; indexing
outside the keys yields `undefined` (`none`). -/
def moveMap : Nat → Option Move
  | 1 => some Move.rock
  | 2 => some Move.paper
  | 3 => some Move.scissors
  | _ => none

/-- The `POST /bot` handler after verification (src/index.ts 231-266).
`chooseBotMove()` draws a uniformly random move; the draw is passed in
as `botMove`.  The store is never touched by this route. -/
def botHandler (cfg : Config) (botMove : Move) (buttonIndex : Nat) : HttpResponse :=
  match moveMap buttonIndex with
  | none =>
    { status := 200
      frame :=
        { title := "Choose a move"
          image := publicUrl cfg ("/images/choose.png")
          buttons := [⟨"Rock", none, none⟩, ⟨"Paper", none, none⟩,
                      ⟨"Scissors", none, none⟩, ⟨"Back", none, none⟩]
          postUrl := publicUrl cfg ("/bot") } }
  | some playerMove =>
    let result := decideWinner playerMove botMove
    let outcomeTitle := if result = 0 then "Draw!" else if result = 1 then "You Win!" else "Bot Wins!"
    { status := 200
      frame :=
        { title := "Bot chose " ++ moveName botMove ++ ". " ++ outcomeTitle
          image := publicUrl cfg ("/images/result.png")
          buttons := [⟨"Play Again", none, none⟩, ⟨"Home", none, none⟩,
                      ⟨"Connect Wallet", none, none⟩]
          postUrl := publicUrl cfg ("/action") } }

/-- src/index.ts 284-286: bind the caller as opponent when the stored
`playerB` is falsy (unset or 0) and the caller is not the initiator. -/
def bindOpponent (fid : Nat) (m : MatchState) : MatchState :=
  if truthyNum m.playerB = false ∧ fid ≠ m.playerA then
    { m with playerB := some fid }
  else m

/-- src/index.ts 292: `if (fid === match.playerA) match.moveA = mv;`.
The assignment is unconditional: no check that the slot is unset. -/
def recordMoveA (fid buttonIndex : Nat) (m : MatchState) : MatchState :=
  if fid = m.playerA then { m with moveA := moveMap buttonIndex } else m

/-- src/index.ts 293: `if (fid === match.playerB) match.moveB = mv;`,
executed on the record as left by the `moveA` assignment. -/
def recordMoveB (fid buttonIndex : Nat) (m : MatchState) : MatchState :=
  if some fid = m.playerB then { m with moveB := moveMap buttonIndex } else m

/-- src/index.ts 289-294: when the button index is in 1..3, write the
mapped move into the slot(s) of the role(s) the caller holds, the
`moveA` line first and then the `moveB` line on its result. -/
def recordMoves (fid buttonIndex : Nat) (m : MatchState) : MatchState :=
  if 1 ≤ buttonIndex ∧ buttonIndex ≤ 3 then
    recordMoveB fid buttonIndex (recordMoveA fid buttonIndex m)
  else m

/-- The full in-place mutation the `/pvp` handler performs on the
consulted record: opponent binding followed by move recording. -/
def pvpUpdate (fid buttonIndex : Nat) (m : MatchState) : MatchState :=
  recordMoves fid buttonIndex (bindOpponent fid m)

/-- The "PvP Match Not Found" screen (src/index.ts 273-281). -/
def matchNotFoundResponse (cfg : Config) : HttpResponse :=
  { status := 200
    frame :=
      { title := "PvP Match Not Found"
        image := publicUrl cfg ("/images/error.png")
        buttons := [⟨"Home", none, none⟩]
        postUrl := publicUrl cfg ("/action") } }

/-- The waiting screen (src/index.ts 296-309); its title switches on the
truthiness of `playerB` and its post_url re-embeds the match id. -/
def waitingResponse (cfg : Config) (matchId : String) (m : MatchState) : HttpResponse :=
  { status := 200
    frame :=
      { title := if truthyNum m.playerB = false then "Waiting for opponent" else "Waiting for both moves"
        image := publicUrl cfg ("/images/lobby.png")
        buttons := [⟨"Rock", none, none⟩, ⟨"Paper", none, none⟩,
                    ⟨"Scissors", none, none⟩, ⟨"Cancel", none, none⟩]
        postUrl := publicUrl cfg ("/pvp?matchId=" ++ matchId) } }

/-- JS rendering of `match.playerB` inside a template string. -/
def optNumText : Option Nat → String
  | none => "undefined"
  | some n => toString n

/-- The resolution screen (src/index.ts 311-328): title from
`decideWinner(match.moveA, match.moveB)`.  The wildcard row is
unreachable in the handler, which resolves only when both moves are
truthy; it mirrors the initial `let title = "Draw!"`. -/
def pvpResultResponse (cfg : Config) (m : MatchState) : HttpResponse :=
  let result : Nat :=
    match m.moveA, m.moveB with
    | some ma, some mb => decideWinner ma mb
    | _, _ => 0
  let title :=
    if result = 1 then "Player " ++ toString m.playerA ++ " wins!"
    else if result = 2 then "Player " ++ optNumText m.playerB ++ " wins!"
    else "Draw!"
  { status := 200
    frame :=
      { title := title
        image := publicUrl cfg ("/images/result.png")
        buttons := [⟨"Rematch", none, none⟩, ⟨"Home", none, none⟩,
                    ⟨"Connect Wallet", none, none⟩]
        postUrl := publicUrl cfg ("/action") } }

/-- The `POST /pvp` handler after verification (src/index.ts 269-329).
`matchId?` is `query?.matchId`.  The source tests
`!matchId || !matches.has(matchId)` and then reads `matches.get(matchId)!`;
here the falsy test on the optional string and the lookup are combined:
`none` and the empty string are falsy, and `has` holds exactly when
`get` is defined.  The record is mutated in place in the source, which
the `Matches.set` models; resolution deletes the record. -/
def pvpHandler (cfg : Config) (store : Matches) (fid buttonIndex : Nat)
    (matchId? : Option String) : HttpResponse × Matches :=
  match matchId? with
  | none => (matchNotFoundResponse cfg, store)
  | some matchId =>
    if matchId = "" then (matchNotFoundResponse cfg, store)
    else
      match Matches.get store matchId with
      | none => (matchNotFoundResponse cfg, store)
      | some m =>
        let m2 := pvpUpdate fid buttonIndex m
        let store1 := Matches.set store matchId m2
        if truthyNum m2.playerB = false ∨ truthyMove m2.moveA = false ∨ truthyMove m2.moveB = false then
          (waitingResponse cfg matchId m2, store1)
        else
          (pvpResultResponse cfg m2, Matches.delete store1 matchId)

/-- The `POST /connect` handler after verification (src/index.ts 332-344). -/
def connectResponse (cfg : Config) : HttpResponse :=
  { status := 200
    frame :=
      { title := "Connect Wallet"
        image := publicUrl cfg ("/images/connect.png")
        buttons := [⟨"Base", some ("url"), some cfg.baseConnectUrl⟩,
                    ⟨"Arbitrum", some ("url"), some cfg.arbConnectUrl⟩,
                    ⟨"Back", none, none⟩]
        postUrl := publicUrl cfg ("/action") } }

/-- The trusted output of the verification adapter (src/index.ts 85-89). -/
structure VerifiedAction where
  fid : Nat
  buttonIndex : Nat
  query : List (String × String)
  deriving DecidableEq, Repr

/-- Flat query lookup (`Object.fromEntries(new URLSearchParams(...))`). -/
def queryGet (q : List (String × String)) (k : String) : Option String :=
  match q with
  | [] => none
  | p :: rest => if p.1 = k then some p.2 else queryGet rest k

/-- The request body as far as the middleware reads it:
`req.body?.trustedData?.messageBytes`, `none` when any link of the
optional chain is absent. -/
structure RequestBody where
  messageBytes : Option String
  deriving DecidableEq, Repr

/-- The 401 error screen of the middleware (src/index.ts 118-126). -/
def unauthorized (cfg : Config) (title : String) : HttpResponse :=
  { status := 401
    frame :=
      { title := title
        image := publicUrl cfg ("/images/error.png")
        buttons := [⟨"Back", none, none⟩]
        postUrl := publicUrl cfg ("/") } }

/-- `verifyFrameAction` (src/index.ts 100-116).  The external Neynar
call is the black-box `validate`; `none` covers both an invalid
signature and a thrown verification error, each of which renders a 401
before any handler runs.  The falsy test `!messageBytes` rejects both
an absent and an empty string blob. -/
def verifyFrameAction (cfg : Config) (validate : String → Option VerifiedAction)
    (body : RequestBody) : Except HttpResponse VerifiedAction :=
  match body.messageBytes with
  | none => Except.error (unauthorized cfg ("Missing messageBytes"))
  | some s =>
    if s = "" then Except.error (unauthorized cfg ("Missing messageBytes"))
    else
      match validate s with
      | none => Except.error (unauthorized cfg ("Invalid signature"))
      | some va => Except.ok va

/-- The four POST routes guarded by the middleware.  `/action` carries
the handling-time clock, `/bot` the random bot draw. -/
inductive Route where
  | action (now : Nat)
  | bot (botMove : Move)
  | pvp
  | connect
  deriving DecidableEq, Repr

/-- Dispatch of a verified action to the route handler. -/
def routeHandler (cfg : Config) (store : Matches) (va : VerifiedAction) :
    Route → HttpResponse × Matches
  | Route.action now => actionHandler cfg store now va.fid va.buttonIndex
  | Route.bot botMove => (botHandler cfg botMove va.buttonIndex, store)
  | Route.pvp => pvpHandler cfg store va.fid va.buttonIndex (queryGet va.query ("matchId"))
  | Route.connect => (connectResponse cfg, store)

/-- A full POST request: the middleware first, the handler only on
verified success (the store is untouched on a verification failure). -/
def handlePost (cfg : Config) (validate : String → Option VerifiedAction)
    (store : Matches) (r : Route) (body : RequestBody) : HttpResponse × Matches :=
  match verifyFrameAction cfg validate body with
  | Except.error resp => (resp, store)
  | Except.ok va => routeHandler cfg store va r

/-- A verified store-touching request: `/bot` and `/connect` never
mutate the store, so sequences over `/action` and `/pvp` cover every
store mutation of the server. -/
inductive Req where
  | action (now fid buttonIndex : Nat)
  | pvp (fid buttonIndex : Nat) (matchId? : Option String)
  deriving DecidableEq, Repr

/-- The store after one verified request. -/
def stepReq (cfg : Config) (store : Matches) : Req → Matches
  | Req.action now fid b => (actionHandler cfg store now fid b).2
  | Req.pvp fid b mid => (pvpHandler cfg store fid b mid).2

/-- The store after a sequence of verified requests. -/
def runReqs (cfg : Config) (store : Matches) (rs : List Req) : Matches :=
  rs.foldl (stepReq cfg) store

/-- A concrete environment used by the concrete executions below. -/
def cfg0 : Config :=
  { publicBase := "http://localhost:3000"
    baseConnectUrl := "https://wallet.coinbase.com/"
    arbConnectUrl := "https://portal.arbitrum.io/" }

/-- C5 trace, step 1: identity 100 taps button 2 on Home (clock 0). -/
def c5step1 : HttpResponse × Matches := actionHandler cfg0 [] 0 100 2

/-- C5 trace, step 2: identity 200 taps button 1 on the pvp callback. -/
def c5step2 : HttpResponse × Matches :=
  pvpHandler cfg0 c5step1.2 200 1 (some (mkMatchId 0 100))

/-- C5 trace, step 3: identity 100 taps button 2 on the same callback. -/
def c5step3 : HttpResponse × Matches :=
  pvpHandler cfg0 c5step2.2 100 2 (some (mkMatchId 0 100))

/-- C5 trace, step 4: a subsequent tap referencing the same match id. -/
def c5step4 : HttpResponse × Matches :=
  pvpHandler cfg0 c5step3.2 200 1 (some (mkMatchId 0 100))

/-- C1 trace: identity 100 creates the lobby at clock 0 ... -/
def c1s1 : Matches := (actionHandler cfg0 [] 0 100 2).2

/-- ... records rock with button 1 (playerB still unset) ... -/
def c1s2 : Matches := (pvpHandler cfg0 c1s1 100 1 (some (mkMatchId 0 100))).2

/-- ... and taps again with button 2. -/
def c1s3 : Matches := (pvpHandler cfg0 c1s2 100 2 (some (mkMatchId 0 100))).2

/-- C2 trace: identity 1 creates a lobby, identity 0 joins (button 9
records no move), then identity 2 acts on the same match. -/
def c2s2 : Matches :=
  (pvpHandler cfg0 (actionHandler cfg0 [] 0 1 2).2 0 9 (some (mkMatchId 0 1))).2

/-- C2 trace, one more verified action by identity 2. -/
def c2s3 : Matches := (pvpHandler cfg0 c2s2 2 9 (some (mkMatchId 0 1))).2

/-- C3 trace: identity 1 creates a lobby at clock 5, identity 0 joins
with rock, then identity 1 records rock. -/
def c3r : HttpResponse × Matches :=
  pvpHandler cfg0
    (pvpHandler cfg0 (actionHandler cfg0 [] 5 1 2).2 0 1 (some (mkMatchId 5 1))).2
    1 1 (some (mkMatchId 5 1))

/-- C6 trace: identity 8 creates a lobby, identity 0 acts on it with a
non-move button. -/
def c6r : HttpResponse × Matches :=
  pvpHandler cfg0 (actionHandler cfg0 [] 0 8 2).2 0 9 (some (mkMatchId 0 8))

/-- C8 trace: identity 1 creates a lobby at clock 0, identity 2 joins it
with rock, and identity 1 creates again at the same clock value. -/
def c8s2 : Matches :=
  (pvpHandler cfg0 (actionHandler cfg0 [] 0 1 2).2 2 1 (some (mkMatchId 0 1))).2

/-- C8 trace: the second creation by the same identity at the same
millisecond. -/
def c8s3 : Matches := (actionHandler cfg0 c8s2 0 1 2).2

/-- C10 trace: identity 4 creates a lobby at clock 3, identity 0 joins,
then identity 7 — equal to neither the initiator 4 nor the bound
opponent 0 — acts on the match. -/
def c10s2 : Matches :=
  (pvpHandler cfg0 (actionHandler cfg0 [] 3 4 2).2 0 9 (some (mkMatchId 3 4))).2

/-- C10 trace: the third identity's action. -/
def c10r : HttpResponse × Matches :=
  pvpHandler cfg0 c10s2 7 9 (some (mkMatchId 3 4))

/-- The spec's stored-record exclusivity invariant: in every stored
record, a set opponent identity differs from the initiator identity. -/
def ExclusivityInv (store : Matches) : Prop :=
  ∀ p ∈ store, ∀ b2, p.2.playerB = some b2 → b2 ≠ p.2.playerA

/-- A one-record store with a nonzero opponent already bound, used to
instantiate the amended C2. -/
def c2wstore : Matches :=
  [(("w"), MatchState.mk ("w") Mode.pvp 1 (some 2) none none 0)]

/-- A one-record store ready to resolve, used to instantiate the
amended C3. -/
def c3wstore : Matches :=
  [(("w3"), MatchState.mk ("w3") Mode.pvp 100 (some 200) none (some Move.rock) 0)]

/-- A one-record store with nothing joined yet, used to instantiate the
amended C6. -/
def c6wstore : Matches :=
  [(("w6"), MatchState.mk ("w6") Mode.pvp 1 none none none 0)]

/-- A one-record store with a nonzero opponent and no moves, used to
instantiate the amended C10. -/
def c10wstore : Matches :=
  [(("wx"), MatchState.mk ("wx") Mode.pvp 1 (some 2) none none 0)]
/-- Looking up the key just written yields the written value. -/
theorem Matches.get_set_self (s : Matches) (k : String) (v : MatchState) :
    Matches.get (Matches.set s k v) k = some v := by
  induction s with
  | nil => simp [Matches.set, Matches.get]
  | cons p rest ih =>
    by_cases h : p.1 = k
    · simp [Matches.set, Matches.get, h]
    · simp [Matches.set, Matches.get, h, ih]

/-- Writing one key leaves lookups of every other key unchanged. -/
theorem Matches.get_set_ne (s : Matches) (k k2 : String) (v : MatchState)
    (h : k2 ≠ k) : Matches.get (Matches.set s k v) k2 = Matches.get s k2 := by
  induction s with
  | nil => simp [Matches.set, Matches.get, Ne.symm h]
  | cons p rest ih =>
    by_cases h1 : p.1 = k
    · simp [Matches.set, Matches.get, h1, Ne.symm h]
    · simp [Matches.set, Matches.get, h1, ih]

/-- Looking up a deleted key yields nothing. -/
theorem Matches.get_delete_self (s : Matches) (k : String) :
    Matches.get (Matches.delete s k) k = none := by
  induction s with
  | nil => simp [Matches.delete, Matches.get]
  | cons p rest ih =>
    by_cases h : p.1 = k
    · simp [Matches.delete, h, ih]
    · simp [Matches.delete, Matches.get, h, ih]

/-- Deleting one key leaves lookups of every other key unchanged. -/
theorem Matches.get_delete_ne (s : Matches) (k k2 : String) (h : k2 ≠ k) :
    Matches.get (Matches.delete s k) k2 = Matches.get s k2 := by
  induction s with
  | nil => simp [Matches.delete]
  | cons p rest ih =>
    by_cases h1 : p.1 = k
    · simp [Matches.delete, Matches.get, h1, Ne.symm h, ih]
    · simp [Matches.delete, Matches.get, h1, ih]

/-- An entry of a store after a write is an old entry or the write. -/
theorem Matches.mem_of_mem_set (s : Matches) (k : String) (v : MatchState)
    (q : String × MatchState) (hq : q ∈ Matches.set s k v) :
    q ∈ s ∨ q = (k, v) := by
  induction s with
  | nil =>
    simp only [Matches.set, List.mem_singleton] at hq
    right
    exact hq
  | cons p rest ih =>
    by_cases h : p.1 = k
    · simp only [Matches.set, if_pos h] at hq
      rcases List.mem_cons.mp hq with rfl | hmem
      · right; rfl
      · left; exact List.mem_cons_of_mem p hmem
    · simp only [Matches.set, if_neg h] at hq
      rcases List.mem_cons.mp hq with rfl | hmem
      · left; exact List.mem_cons_self q rest
      · rcases ih hmem with hin | hkv
        · left; exact List.mem_cons_of_mem p hin
        · right; exact hkv

/-- An entry of a store after a deletion was an entry before it. -/
theorem Matches.mem_of_mem_delete (s : Matches) (k : String)
    (q : String × MatchState) (hq : q ∈ Matches.delete s k) : q ∈ s := by
  induction s with
  | nil => simp [Matches.delete] at hq
  | cons p rest ih =>
    by_cases h : p.1 = k
    · simp only [Matches.delete, if_pos h] at hq
      exact List.mem_cons_of_mem p (ih hq)
    · simp only [Matches.delete, if_neg h] at hq
      rcases List.mem_cons.mp hq with rfl | hmem
      · exact List.mem_cons_self q rest
      · exact List.mem_cons_of_mem p (ih hmem)

/-- A successful lookup exhibits a store entry. -/
theorem Matches.mem_of_get_eq (s : Matches) (k : String) (v : MatchState)
    (h : Matches.get s k = some v) : (k, v) ∈ s := by
  induction s with
  | nil => simp [Matches.get] at h
  | cons p rest ih =>
    obtain ⟨a, b⟩ := p
    by_cases h1 : a = k
    · subst h1
      simp [Matches.get] at h
      subst h
      exact List.mem_cons_self _ _
    · simp [Matches.get, h1] at h
      exact List.mem_cons_of_mem _ (ih h)

/-- Writing an absent key appends: the store grows by one entry. -/
theorem Matches.length_set_of_get_none (s : Matches) (k : String) (v : MatchState)
    (h : Matches.get s k = none) : (Matches.set s k v).length = s.length + 1 := by
  induction s with
  | nil => simp [Matches.set]
  | cons p rest ih =>
    by_cases h1 : p.1 = k
    · simp [Matches.get, h1] at h
    · simp only [Matches.get, if_neg h1] at h
      simp [Matches.set, h1, ih h]

/-- Binding an opponent never touches the initiator field. -/
theorem bindOpponent_playerA (fid : Nat) (m : MatchState) :
    (bindOpponent fid m).playerA = m.playerA := by
  unfold bindOpponent
  split <;> rfl

/-- The `moveA` assignment line never touches the initiator field. -/
theorem recordMoveA_playerA (fid b : Nat) (m : MatchState) :
    (recordMoveA fid b m).playerA = m.playerA := by
  unfold recordMoveA
  split <;> rfl

/-- The `moveA` assignment line never touches the opponent field. -/
theorem recordMoveA_playerB (fid b : Nat) (m : MatchState) :
    (recordMoveA fid b m).playerB = m.playerB := by
  unfold recordMoveA
  split <;> rfl

/-- The `moveA` assignment line never touches `moveB`. -/
theorem recordMoveA_moveB (fid b : Nat) (m : MatchState) :
    (recordMoveA fid b m).moveB = m.moveB := by
  unfold recordMoveA
  split <;> rfl

/-- The `moveB` assignment line never touches the initiator field. -/
theorem recordMoveB_playerA (fid b : Nat) (m : MatchState) :
    (recordMoveB fid b m).playerA = m.playerA := by
  unfold recordMoveB
  split <;> rfl

/-- The `moveB` assignment line never touches the opponent field. -/
theorem recordMoveB_playerB (fid b : Nat) (m : MatchState) :
    (recordMoveB fid b m).playerB = m.playerB := by
  unfold recordMoveB
  split <;> rfl

/-- The `moveB` assignment line never touches `moveA`. -/
theorem recordMoveB_moveA (fid b : Nat) (m : MatchState) :
    (recordMoveB fid b m).moveA = m.moveA := by
  unfold recordMoveB
  split <;> rfl

/-- Move recording never touches the initiator field. -/
theorem recordMoves_playerA (fid b : Nat) (m : MatchState) :
    (recordMoves fid b m).playerA = m.playerA := by
  unfold recordMoves
  split
  · rw [recordMoveB_playerA, recordMoveA_playerA]
  · rfl

/-- Move recording never touches the opponent field. -/
theorem recordMoves_playerB (fid b : Nat) (m : MatchState) :
    (recordMoves fid b m).playerB = m.playerB := by
  unfold recordMoves
  split
  · rw [recordMoveB_playerB, recordMoveA_playerB]
  · rfl

/-- The pvp mutation never changes the initiator field. -/
theorem pvpUpdate_playerA (fid b : Nat) (m : MatchState) :
    (pvpUpdate fid b m).playerA = m.playerA := by
  unfold pvpUpdate
  rw [recordMoves_playerA, bindOpponent_playerA]

/-- After the pvp mutation the opponent field is either unchanged or
just bound to the caller, and in the latter case the caller differs
from the initiator. -/
theorem pvpUpdate_playerB_cases (fid b : Nat) (m : MatchState) :
    (pvpUpdate fid b m).playerB = m.playerB ∨
    ((pvpUpdate fid b m).playerB = some fid ∧ fid ≠ m.playerA) := by
  unfold pvpUpdate
  rw [recordMoves_playerB]
  unfold bindOpponent
  split
  case isTrue h => right; exact ⟨rfl, h.2⟩
  case isFalse h => left; rfl

/-- A truthy opponent field blocks the opponent binding entirely. -/
theorem bindOpponent_eq_self_of_truthy (fid : Nat) (m : MatchState)
    (h : truthyNum m.playerB = true) : bindOpponent fid m = m := by
  unfold bindOpponent
  have hc : ¬(truthyNum m.playerB = false ∧ fid ≠ m.playerA) := by
    rintro ⟨h1, _⟩
    rw [h] at h1
    cases h1
  rw [if_neg hc]

/-- A truthy opponent field survives the pvp mutation unchanged. -/
theorem pvpUpdate_playerB_of_truthy (fid b : Nat) (m : MatchState)
    (h : truthyNum m.playerB = true) :
    (pvpUpdate fid b m).playerB = m.playerB := by
  unfold pvpUpdate
  rw [bindOpponent_eq_self_of_truthy fid m h, recordMoves_playerB]

/-- A present nonzero number is truthy. -/
theorem truthyNum_some_of_ne (pb : Nat) (h : pb ≠ 0) :
    truthyNum (some pb) = true := by
  simp [truthyNum, h]
/-- A missing record (also reached when the id is the empty string, via
the source's falsy test) short-circuits `/pvp` to the not-found screen
without touching the store. -/
theorem pvpHandler_eq_of_get_none (cfg : Config) (store : Matches) (fid b : Nat)
    (matchId : String) (h : Matches.get store matchId = none) :
    pvpHandler cfg store fid b (some matchId) = (matchNotFoundResponse cfg, store) := by
  simp only [pvpHandler]
  by_cases he : matchId = ""
  · rw [if_pos he]
  · rw [if_neg he, h]

/-- On a found record the `/pvp` handler mutates it with `pvpUpdate`,
stores the result, and either renders a waiting screen or resolves and
deletes, depending on the truthiness of the three checked fields. -/
theorem pvpHandler_eq_of_get_some (cfg : Config) (store : Matches) (fid b : Nat)
    (matchId : String) (m : MatchState) (hne : matchId ≠ "")
    (h : Matches.get store matchId = some m) :
    pvpHandler cfg store fid b (some matchId) =
      if truthyNum (pvpUpdate fid b m).playerB = false ∨
         truthyMove (pvpUpdate fid b m).moveA = false ∨
         truthyMove (pvpUpdate fid b m).moveB = false then
        (waitingResponse cfg matchId (pvpUpdate fid b m),
         Matches.set store matchId (pvpUpdate fid b m))
      else
        (pvpResultResponse cfg (pvpUpdate fid b m),
         Matches.delete (Matches.set store matchId (pvpUpdate fid b m)) matchId) := by
  simp only [pvpHandler]
  rw [if_neg hne, h]

/-- The `/action` handler mutates the store only on button 2, where it
writes the new lobby record under the generated id. -/
theorem actionHandler_snd_eq (cfg : Config) (store : Matches) (now fid b : Nat) :
    (actionHandler cfg store now fid b).2 =
      if b = 2 then
        Matches.set store (mkMatchId now fid) (newMatch now fid (mkMatchId now fid))
      else store := by
  unfold actionHandler
  by_cases h2 : b = 2
  · subst h2
    simp
  · by_cases h1 : b = 1
    · subst h1
      simp
    · by_cases h3 : b = 3
      · subst h3
        simp
      · by_cases h4 : b = 4
        · subst h4
          simp
        · simp [h1, h2, h3, h4]

/-- The pvp mutation preserves a record's opponent-differs-from-initiator
property. -/
theorem pvpUpdate_entry_inv (fid b : Nat) (m : MatchState)
    (h : ∀ b2, m.playerB = some b2 → b2 ≠ m.playerA) :
    ∀ b2, (pvpUpdate fid b m).playerB = some b2 → b2 ≠ (pvpUpdate fid b m).playerA := by
  intro b2 hb2
  rw [pvpUpdate_playerA]
  rcases pvpUpdate_playerB_cases fid b m with hc | ⟨hc, hfid⟩
  · exact h b2 (by rw [hc] at hb2; exact hb2)
  · rw [hc] at hb2
    obtain rfl := Option.some.inj hb2
    exact hfid

/-- Writing a record that satisfies the exclusivity property preserves
the store-wide exclusivity invariant. -/
theorem exclusivity_set (store : Matches) (k : String) (v : MatchState)
    (h : ExclusivityInv store) (hv : ∀ b2, v.playerB = some b2 → b2 ≠ v.playerA) :
    ExclusivityInv (Matches.set store k v) := by
  intro p hp b2 hb2
  rcases Matches.mem_of_mem_set store k v p hp with hmem | rfl
  · exact h p hmem b2 hb2
  · exact hv b2 hb2

/-- Deleting preserves the store-wide exclusivity invariant. -/
theorem exclusivity_delete (store : Matches) (k : String)
    (h : ExclusivityInv store) : ExclusivityInv (Matches.delete store k) := by
  intro p hp b2 hb2
  exact h p (Matches.mem_of_mem_delete store k p hp) b2 hb2

/-- One verified request preserves the exclusivity invariant. -/
theorem stepReq_exclusivity (cfg : Config) (store : Matches) (r : Req)
    (h : ExclusivityInv store) : ExclusivityInv (stepReq cfg store r) := by
  cases r with
  | action now fid b =>
    show ExclusivityInv (actionHandler cfg store now fid b).2
    rw [actionHandler_snd_eq]
    split
    · apply exclusivity_set store _ _ h
      intro b2 hb2
      simp [newMatch] at hb2
    · exact h
  | pvp fid b mid =>
    show ExclusivityInv (pvpHandler cfg store fid b mid).2
    cases mid with
    | none => exact h
    | some matchId =>
      by_cases hne : matchId = ""
      · have hs : pvpHandler cfg store fid b (some matchId) = (matchNotFoundResponse cfg, store) := by
          simp only [pvpHandler]
          rw [if_pos hne]
        rw [hs]
        exact h
      · cases hget : Matches.get store matchId with
        | none =>
          rw [pvpHandler_eq_of_get_none cfg store fid b matchId hget]
          exact h
        | some m =>
          rw [pvpHandler_eq_of_get_some cfg store fid b matchId m hne hget]
          have hm := pvpUpdate_entry_inv fid b m
            (fun b2 hb2 => h (matchId, m) (Matches.mem_of_get_eq store matchId m hget) b2 hb2)
          split
          · exact exclusivity_set store matchId _ h hm
          · exact exclusivity_delete _ matchId (exclusivity_set store matchId _ h hm)

/-- Any sequence of verified requests preserves the exclusivity
invariant (in particular it holds for every store reachable from the
empty one). -/
theorem runReqs_exclusivity (cfg : Config) (rs : List Req) (store : Matches)
    (h : ExclusivityInv store) : ExclusivityInv (runReqs cfg store rs) := by
  induction rs generalizing store with
  | nil => exact h
  | cons r rest ih =>
    show ExclusivityInv (runReqs cfg (stepReq cfg store r) rest)
    exact ih (stepReq cfg store r) (stepReq_exclusivity cfg store r h)
/-- When the caller is the initiator, a move button always lands in
`moveA`, regardless of the previous value of `moveA`. -/
theorem pvpUpdate_moveA_eq (fid b : Nat) (m : MatchState)
    (hfid : fid = m.playerA) (hb : 1 ≤ b ∧ b ≤ 3) :
    (pvpUpdate fid b m).moveA = moveMap b := by
  unfold pvpUpdate recordMoves
  rw [if_pos hb, recordMoveB_moveA]
  unfold recordMoveA
  rw [if_pos (by rw [bindOpponent_playerA]; exact hfid)]

/-- When the caller is the recorded opponent, a move button always lands
in `moveB`, regardless of the previous value of `moveB`. -/
theorem pvpUpdate_moveB_eq (fid b : Nat) (m : MatchState)
    (hpb : m.playerB = some fid) (hb : 1 ≤ b ∧ b ≤ 3) :
    (pvpUpdate fid b m).moveB = moveMap b := by
  have hB : (bindOpponent fid m).playerB = some fid := by
    unfold bindOpponent
    split
    · rfl
    · exact hpb
  have h1 : some fid = (recordMoveA fid b (bindOpponent fid m)).playerB := by
    rw [recordMoveA_playerB, hB]
  unfold pvpUpdate recordMoves
  rw [if_pos hb]
  unfold recordMoveB
  rw [if_pos h1]

/-- An action by an identity that is neither the initiator nor the
nonzero recorded opponent leaves the record untouched. -/
theorem pvpUpdate_eq_self_of_spectator (fid b pb : Nat) (m : MatchState)
    (hpb : m.playerB = some pb) (hpb0 : pb ≠ 0)
    (hfa : fid ≠ m.playerA) (hfb : fid ≠ pb) :
    pvpUpdate fid b m = m := by
  have ht : truthyNum m.playerB = true := by
    rw [hpb]
    exact truthyNum_some_of_ne pb hpb0
  unfold pvpUpdate
  rw [bindOpponent_eq_self_of_truthy fid m ht]
  unfold recordMoves
  split
  · have hA : recordMoveA fid b m = m := by
      unfold recordMoveA
      rw [if_neg hfa]
    rw [hA]
    unfold recordMoveB
    have hc2 : ¬(some fid = m.playerB) := by
      rw [hpb]
      intro hc
      exact hfb (Option.some.inj hc)
    rw [if_neg hc2]
  · rfl
/-- C4: `decideWinner` is a deterministic total function with values in
{0,1,2}; equal moves draw; for distinct moves it is antisymmetric over
the cyclic dominance relation (first wins exactly when the swapped
arguments give second wins); rock beats scissors, scissors beats paper,
paper beats rock. -/
theorem c4_decideWinner_algebra :
    (∀ a, decideWinner a a = 0) ∧
    (∀ a b, a ≠ b → (decideWinner a b = 1 ↔ decideWinner b a = 2)) ∧
    (∀ a b, decideWinner a b = 0 ∨ decideWinner a b = 1 ∨ decideWinner a b = 2) ∧
    decideWinner Move.rock Move.scissors = 1 ∧
    decideWinner Move.scissors Move.paper = 1 ∧
    decideWinner Move.paper Move.rock = 1 := by
  decide

/-- Concrete instance of the antisymmetry half of C4 at paper/rock. -/
theorem c4_decideWinner_algebra_witness :
    decideWinner Move.paper Move.rock = 1 ↔ decideWinner Move.rock Move.paper = 2 :=
  c4_decideWinner_algebra.2.1 Move.paper Move.rock (by decide)

/-- C5: the end-to-end PvP scenario.  Identity 100 taps button 2 on
Home, which stores a fresh match under id `0-100` and embeds that id in
the response's callback target; identity 200 tapping button 1 binds 200
as opponent, records rock for 200 and renders the waiting-for-both-moves
screen; identity 100 tapping button 2 (paper) resolves the match naming
identity 100 as winner and removes the record; a subsequent tap on the
same id renders the match-not-found screen and changes nothing. -/
theorem c5_pvp_scenario :
    c5step1.1.frame.postUrl = publicUrl cfg0 ("/pvp?matchId=") ++ mkMatchId 0 100 ∧
    Matches.get c5step1.2 (mkMatchId 0 100) = some (newMatch 0 100 (mkMatchId 0 100)) ∧
    (Matches.get c5step2.2 (mkMatchId 0 100)).map MatchState.playerB = some (some 200) ∧
    (Matches.get c5step2.2 (mkMatchId 0 100)).map MatchState.moveB = some (some Move.rock) ∧
    c5step2.1.frame.title = "Waiting for both moves" ∧
    c5step3.1.frame.title = "Player " ++ toString (100 : Nat) ++ " wins!" ∧
    Matches.get c5step3.2 (mkMatchId 0 100) = none ∧
    c5step4.1 = matchNotFoundResponse cfg0 ∧
    c5step4.2 = c5step3.2 := by
  decide

/-- C1 fails on the code: after identity 100's move is recorded as rock,
a later verified tap by the same identity with button index 2 changes
the stored move to paper — the write is unconditional, so the move field
does transition set-to-a-different-value. -/
theorem c1_counterexample :
    (Matches.get c1s2 (mkMatchId 0 100)).map MatchState.moveA = some (some Move.rock) ∧
    (Matches.get c1s3 (mkMatchId 0 100)).map MatchState.moveA = some (some Move.paper) := by
  decide

/-- C1 amended: a verified move tap from an identity holding a role in
the match always stores the move mapped from the tapped button into
that role's slot — the LAST write wins (so re-submitting the same move
is idempotent, but a different button index does overwrite).  When the
write completes the record, the handler may instead resolve and delete
it, in which case the record is gone. -/
theorem c1_move_overwrite (cfg : Config) (store : Matches) (matchId : String)
    (m : MatchState) (fid b : Nat)
    (hne : matchId ≠ "") (hget : Matches.get store matchId = some m)
    (hb : 1 ≤ b ∧ b ≤ 3)
    (hrole : fid = m.playerA ∨ m.playerB = some fid) :
    Matches.get (pvpHandler cfg store fid b (some matchId)).2 matchId = none ∨
    ∃ m2, Matches.get (pvpHandler cfg store fid b (some matchId)).2 matchId = some m2 ∧
      (if fid = m.playerA then m2.moveA = moveMap b else m2.moveB = moveMap b) := by
  rw [pvpHandler_eq_of_get_some cfg store fid b matchId m hne hget]
  split
  · right
    refine ⟨pvpUpdate fid b m, Matches.get_set_self store matchId _, ?_⟩
    by_cases hA : fid = m.playerA
    · rw [if_pos hA]
      exact pvpUpdate_moveA_eq fid b m hA hb
    · rw [if_neg hA]
      rcases hrole with h1 | h1
      · exact absurd h1 hA
      · exact pvpUpdate_moveB_eq fid b m h1 hb
  · left
    exact Matches.get_delete_self _ matchId

/-- Concrete instance of the amended C1: identity 100 overwrites its
recorded rock with paper. -/
theorem c1_move_overwrite_witness :
    Matches.get (pvpHandler cfg0 c1s2 100 2 (some (mkMatchId 0 100))).2 (mkMatchId 0 100) = none ∨
    ∃ m2, Matches.get (pvpHandler cfg0 c1s2 100 2 (some (mkMatchId 0 100))).2 (mkMatchId 0 100) = some m2 ∧
      (if (100 : Nat) = (MatchState.mk (mkMatchId 0 100) Mode.pvp 100 none (some Move.rock) none 0).playerA
       then m2.moveA = moveMap 2 else m2.moveB = moveMap 2) :=
  c1_move_overwrite cfg0 c1s2 (mkMatchId 0 100)
    (MatchState.mk (mkMatchId 0 100) Mode.pvp 100 none (some Move.rock) none 0) 100 2
    (by decide) (by decide) (by decide) (Or.inl rfl)

/-- C2 fails on the code: the opponent slot is set twice.  Identity 0 is
bound as opponent, and because the handler's emptiness test `!playerB`
treats the number 0 as unset, a later action by identity 2 rebinds the
already-set opponent slot. -/
theorem c2_counterexample :
    (Matches.get c2s2 (mkMatchId 0 1)).map MatchState.playerB = some (some 0) ∧
    (Matches.get c2s3 (mkMatchId 0 1)).map MatchState.playerB = some (some 2) := by
  decide

/-- C2 amended: exclusivity holds unconditionally — every request
sequence preserves the invariant that a bound opponent differs from the
initiator (and new records carry no opponent, so all reachable stores
satisfy it); the at-most-once half holds for a NONZERO bound opponent:
such a binding is never reassigned, while a bound opponent equal to 0
is treated as unset by the handler's falsy test and may be rebound. -/
theorem c2_opponent_binding (cfg : Config) (store : Matches) (rs : List Req)
    (matchId : String) (m : MatchState) (pb fid b : Nat)
    (hinv : ExclusivityInv store)
    (hget : Matches.get store matchId = some m)
    (hpb : m.playerB = some pb) (hpb0 : pb ≠ 0) :
    ExclusivityInv (runReqs cfg store rs) ∧
    (Matches.get (pvpHandler cfg store fid b (some matchId)).2 matchId = none ∨
     ∃ m2, Matches.get (pvpHandler cfg store fid b (some matchId)).2 matchId = some m2 ∧
       m2.playerB = some pb ∧ m2.playerA = m.playerA) := by
  constructor
  · exact runReqs_exclusivity cfg rs store hinv
  · by_cases hne : matchId = ""
    · right
      have hs : pvpHandler cfg store fid b (some matchId) = (matchNotFoundResponse cfg, store) := by
        simp only [pvpHandler]
        rw [if_pos hne]
      rw [hs]
      exact ⟨m, hget, hpb, rfl⟩
    · rw [pvpHandler_eq_of_get_some cfg store fid b matchId m hne hget]
      have ht : truthyNum m.playerB = true := by
        rw [hpb]
        exact truthyNum_some_of_ne pb hpb0
      split
      · right
        refine ⟨pvpUpdate fid b m, Matches.get_set_self store matchId _, ?_,
          pvpUpdate_playerA fid b m⟩
        rw [pvpUpdate_playerB_of_truthy fid b m ht, hpb]
      · left
        exact Matches.get_delete_self _ matchId

/-- Concrete instance of the amended C2: a store with opponent 2 bound
stays exclusive under a request, and identity 3 cannot rebind. -/
theorem c2_opponent_binding_witness :
    ExclusivityInv (runReqs cfg0 c2wstore [Req.pvp 3 1 (some ("w"))]) ∧
    (Matches.get (pvpHandler cfg0 c2wstore 3 1 (some ("w"))).2 ("w") = none ∨
     ∃ m2, Matches.get (pvpHandler cfg0 c2wstore 3 1 (some ("w"))).2 ("w") = some m2 ∧
       m2.playerB = some 2 ∧
       m2.playerA = (MatchState.mk ("w") Mode.pvp 1 (some 2) none none 0).playerA) :=
  c2_opponent_binding cfg0 c2wstore [Req.pvp 3 1 (some ("w"))] ("w")
    (MatchState.mk ("w") Mode.pvp 1 (some 2) none none 0) 2 3 1
    (by
      intro p hp b2 hb2
      unfold c2wstore at hp
      rw [List.mem_singleton] at hp
      subst hp
      obtain rfl := (Option.some.inj hb2).symm
      decide)
    (by decide) rfl (by decide)
/-- C3 fails on the code: this callback leaves a record holding both
moves, yet the match is not resolved and not removed — the resolution
guard also requires a truthy `playerB`, and the bound opponent identity
0 is falsy, so the handler renders a waiting screen and keeps the
record. -/
theorem c3_counterexample :
    (Matches.get c3r.2 (mkMatchId 5 1)).map MatchState.moveA = some (some Move.rock) ∧
    (Matches.get c3r.2 (mkMatchId 5 1)).map MatchState.moveB = some (some Move.rock) ∧
    (Matches.get c3r.2 (mkMatchId 5 1)).map MatchState.playerB = some (some 0) ∧
    c3r.1 = waitingResponse cfg0 (mkMatchId 5 1)
      (MatchState.mk (mkMatchId 5 1) Mode.pvp 1 (some 0) (some Move.rock) (some Move.rock) 5) := by
  decide

/-- C3 amended: when the callback leaves the record with both moves
present AND a truthy (nonzero) opponent, the handler resolves and
removes it in the same transition — the response is the resolution
screen, the id is absent afterward, and any verified callback against a
store lacking the id (as every later `/pvp` callback does, since the
not-found path never re-adds it) renders the match-not-found screen and
leaves that store unchanged; hence no record resolves twice. -/
theorem c3_resolution_removes (cfg : Config) (store : Matches) (matchId : String)
    (m : MatchState) (fid b : Nat) (store2 : Matches) (fid2 b2 : Nat)
    (hne : matchId ≠ "") (hget : Matches.get store matchId = some m)
    (hB : truthyNum (pvpUpdate fid b m).playerB = true)
    (hA : truthyMove (pvpUpdate fid b m).moveA = true)
    (hM : truthyMove (pvpUpdate fid b m).moveB = true)
    (hgone : Matches.get store2 matchId = none) :
    (pvpHandler cfg store fid b (some matchId)).1 = pvpResultResponse cfg (pvpUpdate fid b m) ∧
    Matches.get (pvpHandler cfg store fid b (some matchId)).2 matchId = none ∧
    pvpHandler cfg store2 fid2 b2 (some matchId) = (matchNotFoundResponse cfg, store2) := by
  rw [pvpHandler_eq_of_get_some cfg store fid b matchId m hne hget]
  rw [if_neg (by simp [hB, hA, hM])]
  exact ⟨rfl, Matches.get_delete_self _ matchId,
    pvpHandler_eq_of_get_none cfg store2 fid2 b2 matchId hgone⟩

/-- Concrete instance of the amended C3: identity 100 completes the
match against opponent 200, the record is removed, and a later callback
on the emptied store renders match-not-found. -/
theorem c3_resolution_removes_witness :
    (pvpHandler cfg0 c3wstore 100 2 (some ("w3"))).1 =
      pvpResultResponse cfg0
        (pvpUpdate 100 2 (MatchState.mk ("w3") Mode.pvp 100 (some 200) none (some Move.rock) 0)) ∧
    Matches.get (pvpHandler cfg0 c3wstore 100 2 (some ("w3"))).2 ("w3") = none ∧
    pvpHandler cfg0 [] 5 1 (some ("w3")) = (matchNotFoundResponse cfg0, []) :=
  c3_resolution_removes cfg0 c3wstore ("w3")
    (MatchState.mk ("w3") Mode.pvp 100 (some 200) none (some Move.rock) 0) 100 2 [] 5 1
    (by decide) (by decide) (by decide) (by decide) (by decide) rfl

/-- C6 fails on the code: the record now has an opponent bound (identity
0) and unset moves, so the claim requires the "Waiting for both moves"
title, but the handler's falsy test on `playerB` renders "Waiting for
opponent". -/
theorem c6_counterexample :
    (Matches.get c6r.2 (mkMatchId 0 8)).map MatchState.playerB = some (some 0) ∧
    (Matches.get c6r.2 (mkMatchId 0 8)).map MatchState.moveA = some none ∧
    c6r.1.frame.title = "Waiting for opponent" := by
  decide

/-- C6 amended: a non-resolvable consulted match renders the waiting
screen whose title switches on the FALSINESS of the opponent field —
"Waiting for opponent" when the field is unset or holds identity 0,
"Waiting for both moves" when a nonzero opponent is bound — and whose
callback target re-embeds the same matchId query parameter. -/
theorem c6_waiting_screen (cfg : Config) (store : Matches) (matchId : String)
    (m : MatchState) (fid b : Nat)
    (hne : matchId ≠ "") (hget : Matches.get store matchId = some m)
    (hwait : truthyNum (pvpUpdate fid b m).playerB = false ∨
             truthyMove (pvpUpdate fid b m).moveA = false ∨
             truthyMove (pvpUpdate fid b m).moveB = false) :
    (pvpHandler cfg store fid b (some matchId)).1 =
      waitingResponse cfg matchId (pvpUpdate fid b m) ∧
    (pvpHandler cfg store fid b (some matchId)).1.frame.title =
      (if truthyNum (pvpUpdate fid b m).playerB = false then "Waiting for opponent"
       else "Waiting for both moves") ∧
    (pvpHandler cfg store fid b (some matchId)).1.frame.postUrl =
      publicUrl cfg ("/pvp?matchId=" ++ matchId) := by
  rw [pvpHandler_eq_of_get_some cfg store fid b matchId m hne hget, if_pos hwait]
  exact ⟨rfl, rfl, rfl⟩

/-- Concrete instance of the amended C6: a lobby with no opponent
renders the waiting screen with the opponent-falsy title. -/
theorem c6_waiting_screen_witness :
    (pvpHandler cfg0 c6wstore 1 9 (some ("w6"))).1 =
      waitingResponse cfg0 ("w6")
        (pvpUpdate 1 9 (MatchState.mk ("w6") Mode.pvp 1 none none none 0)) ∧
    (pvpHandler cfg0 c6wstore 1 9 (some ("w6"))).1.frame.title =
      (if truthyNum (pvpUpdate 1 9 (MatchState.mk ("w6") Mode.pvp 1 none none none 0)).playerB = false
       then "Waiting for opponent" else "Waiting for both moves") ∧
    (pvpHandler cfg0 c6wstore 1 9 (some ("w6"))).1.frame.postUrl =
      publicUrl cfg0 ("/pvp?matchId=" ++ "w6") :=
  c6_waiting_screen cfg0 c6wstore ("w6")
    (MatchState.mk ("w6") Mode.pvp 1 none none none 0) 1 9
    (by decide) (by decide) (Or.inl (by decide))

/-- C7: any verified `/action` tap with a button index outside 1..4
returns exactly the `Home` response of `GET /` with the store unchanged,
and that response is a success (status 200), never an error. -/
theorem c7_action_fallback (cfg : Config) (store : Matches) (now fid b : Nat)
    (h : ¬(1 ≤ b ∧ b ≤ 4)) :
    actionHandler cfg store now fid b = (getRoot cfg, store) ∧
    (getRoot cfg).status = 200 := by
  have h1 : b ≠ 1 := by omega
  have h2 : b ≠ 2 := by omega
  have h3 : b ≠ 3 := by omega
  have h4 : b ≠ 4 := by omega
  refine ⟨?_, rfl⟩
  unfold actionHandler getRoot
  rw [if_neg h1, if_neg h2, if_neg h3, if_neg h4]

/-- Concrete instance of C7 at button index 7. -/
theorem c7_action_fallback_witness :
    actionHandler cfg0 [] 0 100 7 = (getRoot cfg0, []) ∧
    (getRoot cfg0).status = 200 :=
  c7_action_fallback cfg0 [] 0 100 7 (by decide)

/-- C8 fails on the code: the id `Date.now() + "-" + fid` is not fresh
when the same identity creates twice within one millisecond; the second
creation silently replaces the stored match (which already had an
opponent and a move) with a blank record, and the store still holds a
single entry. -/
theorem c8_counterexample :
    (Matches.get c8s2 (mkMatchId 0 1)).map MatchState.playerB = some (some 2) ∧
    (Matches.get c8s2 (mkMatchId 0 1)).map MatchState.moveB = some (some Move.rock) ∧
    Matches.get c8s3 (mkMatchId 0 1) = some (newMatch 0 1 (mkMatchId 0 1)) ∧
    c8s3.length = 1 := by
  decide

/-- C8 amended: lobby creation stores the new record under the id
derived from (timestamp, fid); whenever that id is not already a key of
the store the creation adds a fresh entry — every other record is
untouched and the store grows by one — so ids are unique among stored
records exactly as long as no two creations share the same
(timestamp, fid) pair; a colliding pair replaces the stored match. -/
theorem c8_fresh_id_creation (cfg : Config) (store : Matches) (now fid : Nat) (k : String)
    (hfresh : Matches.get store (mkMatchId now fid) = none)
    (hk : k ≠ mkMatchId now fid) :
    Matches.get (actionHandler cfg store now fid 2).2 (mkMatchId now fid) =
      some (newMatch now fid (mkMatchId now fid)) ∧
    Matches.get (actionHandler cfg store now fid 2).2 k = Matches.get store k ∧
    (actionHandler cfg store now fid 2).2.length = store.length + 1 := by
  rw [actionHandler_snd_eq, if_pos rfl]
  exact ⟨Matches.get_set_self store _ _, Matches.get_set_ne store _ k _ hk,
    Matches.length_set_of_get_none store _ _ hfresh⟩

/-- Concrete instance of the amended C8 on the empty store. -/
theorem c8_fresh_id_creation_witness :
    Matches.get (actionHandler cfg0 [] 0 1 2).2 (mkMatchId 0 1) =
      some (newMatch 0 1 (mkMatchId 0 1)) ∧
    Matches.get (actionHandler cfg0 [] 0 1 2).2 ("x") = Matches.get [] ("x") ∧
    (actionHandler cfg0 [] 0 1 2).2.length = List.length ([] : Matches) + 1 :=
  c8_fresh_id_creation cfg0 [] 0 1 ("x") rfl (by decide)

/-- C9: a POST callback on any route whose body lacks
`trustedData.messageBytes` is rejected by the middleware before any
handler runs: the response is the 401 error screen with the single
"Back" button, and the store is completely unchanged. -/
theorem c9_missing_signature (cfg : Config) (validate : String → Option VerifiedAction)
    (store : Matches) (r : Route) (body : RequestBody)
    (h : body.messageBytes = none) :
    handlePost cfg validate store r body = (unauthorized cfg ("Missing messageBytes"), store) ∧
    (unauthorized cfg ("Missing messageBytes")).status = 401 ∧
    (unauthorized cfg ("Missing messageBytes")).frame.buttons = [⟨"Back", none, none⟩] := by
  refine ⟨?_, rfl, rfl⟩
  unfold handlePost verifyFrameAction
  rw [h]

/-- Concrete instance of C9 on the `/pvp` route with an empty store. -/
theorem c9_missing_signature_witness :
    handlePost cfg0 (fun _ => none) [] Route.pvp (RequestBody.mk none) =
      (unauthorized cfg0 ("Missing messageBytes"), []) ∧
    (unauthorized cfg0 ("Missing messageBytes")).status = 401 ∧
    (unauthorized cfg0 ("Missing messageBytes")).frame.buttons = [⟨"Back", none, none⟩] :=
  c9_missing_signature cfg0 (fun _ => none) [] Route.pvp (RequestBody.mk none) rfl

/-- C10 fails on the code: a third identity (7, equal to neither
playerA = 4 nor the bound opponent 0) does change the record — it
rebinds the opponent slot, because the emptiness test `!playerB` treats
the bound identity 0 as unset. -/
theorem c10_counterexample :
    (Matches.get c10s2 (mkMatchId 3 4)).map MatchState.playerA = some 4 ∧
    (Matches.get c10s2 (mkMatchId 3 4)).map MatchState.playerB = some (some 0) ∧
    (Matches.get c10r.2 (mkMatchId 3 4)).map MatchState.playerB = some (some 7) := by
  decide

/-- C10 amended: when the bound opponent identity is NONZERO (so the
handler's falsy test sees it as bound) and the match is still waiting
on a move, a verified action by a third identity — neither the
initiator nor that opponent — leaves every store lookup unchanged for
every button index and renders the waiting screen for the untouched
record. -/
theorem c10_spectator_no_effect (cfg : Config) (store : Matches) (matchId : String)
    (m : MatchState) (fid b pb : Nat) (k : String)
    (hne : matchId ≠ "") (hget : Matches.get store matchId = some m)
    (hpb : m.playerB = some pb) (hpb0 : pb ≠ 0)
    (hfa : fid ≠ m.playerA) (hfb : fid ≠ pb)
    (hwait : m.moveA = none ∨ m.moveB = none) :
    Matches.get (pvpHandler cfg store fid b (some matchId)).2 k = Matches.get store k ∧
    (pvpHandler cfg store fid b (some matchId)).1 = waitingResponse cfg matchId m := by
  have hupd : pvpUpdate fid b m = m :=
    pvpUpdate_eq_self_of_spectator fid b pb m hpb hpb0 hfa hfb
  rw [pvpHandler_eq_of_get_some cfg store fid b matchId m hne hget, hupd]
  have hcond : truthyNum m.playerB = false ∨ truthyMove m.moveA = false ∨
      truthyMove m.moveB = false := by
    rcases hwait with h1 | h1
    · right; left
      rw [h1]
      rfl
    · right; right
      rw [h1]
      rfl
  rw [if_pos hcond]
  constructor
  · by_cases hkm : k = matchId
    · subst hkm
      rw [Matches.get_set_self store k m, hget]
    · rw [Matches.get_set_ne store matchId k m hkm]
  · rfl

/-- Concrete instance of the amended C10: identity 5 cannot touch a
match between initiator 1 and opponent 2. -/
theorem c10_spectator_no_effect_witness :
    Matches.get (pvpHandler cfg0 c10wstore 5 1 (some ("wx"))).2 ("wx") =
      Matches.get c10wstore ("wx") ∧
    (pvpHandler cfg0 c10wstore 5 1 (some ("wx"))).1 =
      waitingResponse cfg0 ("wx") (MatchState.mk ("wx") Mode.pvp 1 (some 2) none none 0) :=
  c10_spectator_no_effect cfg0 c10wstore ("wx")
    (MatchState.mk ("wx") Mode.pvp 1 (some 2) none none 0) 5 1 2 ("wx")
    (by decide) (by decide) rfl (by decide) (by decide) (by decide) (Or.inl rfl)
end RPS
